import Mathlib

/-!
Verification development for the file-validator engine: a shallow
embedding of the rule-evaluation engine (`csvValidator.js`) and the
reconciliation engine (`sourceDestinationValidator.js`), followed by
theorems settling the stated claims about them.

Modelling conventions:
* A CSV field value is a `String`, and an absent value (JS
  `undefined`/`null`) is `none`, so field values are `Option String`.
* JS numbers obtained from `Number(string)` are modelled exactly as
  `mantissa * 10 ^ exp10` with `mantissa : Int`, `exp10 : Int` (plus
  infinities); IEEE-754 double rounding and overflow to `Infinity` of
  finite literals are not modelled.
* Platform collaborators with no algorithmic content in this repository
  (the `RegExp` engine applied to user-supplied rule patterns, and
  `Date.parse`) are passed in as an explicit environment `JsEnv`.
* Error and warning messages are modelled as structured values that
  record which check produced them and its dynamic parts, rather than
  as the rendered English sentences.
-/

namespace FileValidator

/-- JS whitespace class (ASCII part plus NBSP), used both by
`String.prototype.trim`-style trimming inside `Number(...)` and by the
`\s` character class of the fixed regexes in the source. -/
def isJsWs (c : Char) : Bool :=
  c == ' ' || c == '\t' || c == '\n' || c == '\r' || c == '\x0b' || c == '\x0c' || c == '\xa0'

/-- Trim JS whitespace from both ends of a character list. -/
def trimWsList (cs : List Char) : List Char :=
  ((cs.dropWhile isJsWs).reverse.dropWhile isJsWs).reverse

/-- JS `String.prototype.trim()`. -/
def jsTrim (s : String) : String := String.mk (trimWsList s.toList)

/-- JS `String.prototype.toLowerCase()` (faithful on ASCII, which is all
the source compares against). -/
def jsToLowerCase (s : String) : String := String.mk (s.toList.map Char.toLower)

/-- A JS number as produced by `Number(string)`: an exact decimal value
`mantissa * 10 ^ exp10`, or an infinity. `NaN` is represented by `none`
at use sites (`Option JsNum`). -/
inductive JsNum where
  | finite (mantissa : Int) (exp10 : Int)
  | infinite (neg : Bool)
deriving DecidableEq, Repr

def decDigitVal (c : Char) : Nat := c.toNat - '0'.toNat

def hexDigitVal (c : Char) : Option Nat :=
  if c.isDigit then some (decDigitVal c)
  else if 'a' ≤ c ∧ c ≤ 'f' then some (c.toNat - 'a'.toNat + 10)
  else if 'A' ≤ c ∧ c ≤ 'F' then some (c.toNat - 'A'.toNat + 10)
  else none

def octDigitVal (c : Char) : Option Nat :=
  if '0' ≤ c ∧ c ≤ '7' then some (decDigitVal c) else none

def binDigitVal (c : Char) : Option Nat :=
  if c == '0' then some 0 else if c == '1' then some 1 else none

/-- Digits-to-value in a given base, most significant first. -/
def digitsToNat (base : Nat) (ds : List Nat) : Nat :=
  ds.foldl (fun a d => a * base + d) 0

/-- Parse the tail of a `0x`/`0o`/`0b` literal: one or more digits of the
base, consuming the whole remainder, no sign, no dot, no exponent. -/
def parseRadixTail (base : Nat) (dv : Char → Option Nat) (cs : List Char) : Option JsNum :=
  let vals := cs.map dv
  if cs ≠ [] ∧ vals.all Option.isSome then
    some (.finite ((digitsToNat base (vals.map (fun o => o.getD 0)) : Nat) : Int) 0)
  else none

/-- Parse an optional exponent part (`e`/`E`, optional sign, one or more
digits) that must consume the whole remainder; `[]` means exponent 0. -/
def parseExponent (cs : List Char) : Option Int :=
  match cs with
  | [] => some 0
  | e :: rest =>
    if e == 'e' || e == 'E' then
      let sr : Int × List Char :=
        match rest with
        | '+' :: r => (1, r)
        | '-' :: r => (-1, r)
        | r => (1, r)
      let ds := sr.2.takeWhile Char.isDigit
      let tail := sr.2.dropWhile Char.isDigit
      if ds ≠ [] ∧ tail = [] then
        some (sr.1 * ((digitsToNat 10 (ds.map decDigitVal) : Nat) : Int))
      else none
    else none

/-- Parse `StrUnsignedDecimalLiteral`: `Infinity`, or decimal digits with
an optional dot, optional fractional digits and optional exponent. -/
def parseUnsignedDecimal (neg : Bool) (cs : List Char) : Option JsNum :=
  if cs = ['I', 'n', 'f', 'i', 'n', 'i', 't', 'y'] then some (.infinite neg)
  else
    let intDs := cs.takeWhile Char.isDigit
    let rest1 := cs.dropWhile Char.isDigit
    match rest1 with
    | '.' :: rest2 =>
      let fracDs := rest2.takeWhile Char.isDigit
      let rest3 := rest2.dropWhile Char.isDigit
      if intDs = [] ∧ fracDs = [] then none
      else
        match parseExponent rest3 with
        | some e =>
          let mag : Nat := digitsToNat 10 ((intDs ++ fracDs).map decDigitVal)
          some (.finite (if neg then -(mag : Int) else (mag : Int)) (e - (fracDs.length : Int)))
        | none => none
    | _ =>
      if intDs = [] then none
      else
        match parseExponent rest1 with
        | some e =>
          let mag : Nat := digitsToNat 10 (intDs.map decDigitVal)
          some (.finite (if neg then -(mag : Int) else (mag : Int)) e)
        | none => none

def parseSignedDecimal (cs : List Char) : Option JsNum :=
  match cs with
  | '+' :: r => parseUnsignedDecimal false r
  | '-' :: r => parseUnsignedDecimal true r
  | r => parseUnsignedDecimal false r

/-- JS `Number(string)` (ECMAScript `StringNumericLiteral`): trim, empty
means `0`, radix-prefixed integer literals, otherwise an optionally
signed decimal literal or `Infinity`; anything else is `NaN` (`none`).
The value is kept exact; double rounding/overflow is not modelled. -/
def jsStrToNum (s : String) : Option JsNum :=
  let cs := trimWsList s.toList
  match cs with
  | [] => some (.finite 0 0)
  | '0' :: x :: rest =>
    if x == 'x' || x == 'X' then parseRadixTail 16 hexDigitVal rest
    else if x == 'o' || x == 'O' then parseRadixTail 8 octDigitVal rest
    else if x == 'b' || x == 'B' then parseRadixTail 2 binDigitVal rest
    else parseSignedDecimal cs
  | _ => parseSignedDecimal cs

/-- JS `Number.isInteger` on the result of `Number(string)`: `false` for
`NaN` and infinities, and for finite `m * 10 ^ e` true iff the value has
no fractional part. -/
def jsNumberIsInteger (n : Option JsNum) : Bool :=
  match n with
  | some (.finite m e) => if 0 ≤ e then true else (m % ((10 : Int) ^ (-e).toNat)) == 0
  | _ => false

/-- Source `validateDataType`, integer case (csvValidator.js:261):
`!isNaN(Number(value)) && Number.isInteger(Number(value))`. -/
def integerTypeCheckBool (value : String) : Bool :=
  !(jsStrToNum value).isNone && jsNumberIsInteger (jsStrToNum value)

/-- Source `isValidBoolean` (csvValidator.js:377): lowercase the value
(no trimming) and compare against the six accepted tokens. -/
def isValidBoolean (value : String) : Bool :=
  let lowerValue := jsToLowerCase value
  lowerValue == "true" || lowerValue == "false" ||
    lowerValue == "yes" || lowerValue == "no" ||
    lowerValue == "1" || lowerValue == "0"

/-- JS `string.split(sep)` for a one-character separator, on character
lists. Always returns at least one (possibly empty) piece. -/
def splitOnChar (sep : Char) : List Char → List (List Char)
  | [] => [[]]
  | c :: rest =>
    let r := splitOnChar sep rest
    if c == sep then [] :: r
    else (c :: r.headD []) :: r.tail

/-- Source: `if (numStr.startsWith('-')) numStr = numStr.substring(1)`. -/
def stripMinus (cs : List Char) : List Char :=
  match cs with
  | '-' :: rest => rest
  | _ => cs

def skipWsChars (cs : List Char) : List Char := cs.dropWhile isJsWs

/-- One attempt of the `/decimal\s*\(\s*(\d+)\s*,\s*(\d+)\s*\)/i` match
anchored at the head of `cs`. -/
def matchDecimalAt (cs : List Char) : Option (Nat × Nat) :=
  if (cs.take 7).map Char.toLower = ['d', 'e', 'c', 'i', 'm', 'a', 'l'] then
    let r0 := skipWsChars (cs.drop 7)
    match r0 with
    | '(' :: r1 =>
      let r2 := skipWsChars r1
      let d1 := r2.takeWhile Char.isDigit
      let r3 := skipWsChars (r2.dropWhile Char.isDigit)
      if d1 = [] then none
      else
        match r3 with
        | ',' :: r4 =>
          let r5 := skipWsChars r4
          let d2 := r5.takeWhile Char.isDigit
          let r6 := skipWsChars (r5.dropWhile Char.isDigit)
          if d2 = [] then none
          else
            match r6 with
            | ')' :: _ => some (digitsToNat 10 (d1.map decDigitVal), digitsToNat 10 (d2.map decDigitVal))
            | _ => none
        | _ => none
    | _ => none
  else none

def parseDecimalPrecisionAux : List Char → Option (Nat × Nat)
  | [] => none
  | c :: rest =>
    match matchDecimalAt (c :: rest) with
    | some r => some r
    | none => parseDecimalPrecisionAux rest

/-- Source `parseDecimalPrecision` (csvValidator.js:140): find the first
(leftmost) match of `decimal ( P , S )`, case-insensitively and
whitespace-tolerantly, anywhere in the type string. -/
def parseDecimalPrecision (dataType : String) : Option (Nat × Nat) :=
  parseDecimalPrecisionAux dataType.toList

/-- Outcome of the decimal precision check, one constructor per return
path of the source `validateDecimal` (the source distinguishes them via
the `details` message). -/
inductive DecimalVerdict where
  | ok
  | notANumber
  | intDigitsOverPrecision
  | wrongScale
  | overTotalPrecision
  | integerPartTooLong
deriving DecidableEq, Repr

/-- Source `validateDecimal` (csvValidator.js:306) given the already
parsed precision info. -/
def validateDecimalCore (value : String) (info : Option (Nat × Nat)) : DecimalVerdict :=
  if (jsStrToNum value).isNone then .notANumber
  else
    match info with
    | none => .ok
    | some (precision, scale) =>
      let numStr := stripMinus (jsTrim value).toList
      if !(numStr.contains '.') then
        if numStr.length > precision then .intDigitsOverPrecision else .ok
      else
        let parts := splitOnChar '.' numStr
        let integerPart := parts.headD []
        let decimalPart := (parts.drop 1).headD []
        if decimalPart ≠ [] ∧ decimalPart.length ≠ scale then .wrongScale
        else
          let totalDigits := integerPart.length + (if decimalPart ≠ [] then decimalPart.length else 0)
          if totalDigits > precision then .overTotalPrecision
          else if (integerPart.length : Int) > (precision : Int) - (scale : Int) then .integerPartTooLong
          else .ok

/-- Source `validateDecimal` on the raw type string. -/
def validateDecimal (value : String) (originalDataType : String) : DecimalVerdict :=
  validateDecimalCore value (parseDecimalPrecision originalDataType)

/-- The regex `/^[^\s@]+@[^\s@]+\.[^\s@]+$/` used for the `email` data
type: a non-empty run without whitespace or `@`, one `@`, then a domain
without whitespace or `@` that contains a dot which is neither its first
nor its last character. -/
def jsEmailTest (s : String) : Bool :=
  let cs := s.toList
  let l := cs.takeWhile (fun c => !(c == '@'))
  match cs.dropWhile (fun c => !(c == '@')) with
  | '@' :: dom =>
    !(l = []) && l.all (fun c => !(isJsWs c)) &&
      !(dom = []) && dom.all (fun c => !(isJsWs c) && !(c == '@')) &&
      ((dom.drop 1).dropLast.contains '.')
  | _ => false

/-- The `phone` data type check: strip `[\s\-\(\)]` and match
`/^[\+]?[1-9][\d]{0,15}$/`. -/
def jsPhoneTest (value : String) : Bool :=
  let cleaned := value.toList.filter (fun c => !(isJsWs c || c == '-' || c == '(' || c == ')'))
  let rest := match cleaned with
    | '+' :: r => r
    | r => r
  match rest with
  | [] => false
  | d :: ds => d.isDigit && !(d == '0') && decide (ds.length ≤ 15) && ds.all Char.isDigit

/-- Platform collaborators used by the field validator: the `RegExp`
engine applied to user-supplied rule patterns (`none` models a pattern
whose compilation throws) and `Date.parse` (`true` iff not `NaN`). -/
structure JsEnv where
  regexCompile : String → Option (String → Bool)
  dateParse : String → Bool

/-- An environment whose regex compiler always throws and whose date
parser accepts nothing; used to instantiate theorems at concrete
inputs that do not involve pattern or date rules. -/
def trivialEnv : JsEnv :=
  { regexCompile := fun _ => none, dateParse := fun _ => false }

/-- Source `validateDataType` (csvValidator.js:255): dispatch on the
lowercased expected type; returns the `isValid` flag. -/
def validateDataType (env : JsEnv) (value : String) (expectedType : String)
    (originalDataType : String) : Bool :=
  match jsToLowerCase expectedType with
  | "string" => true
  | "number" => integerTypeCheckBool value
  | "integer" => integerTypeCheckBool value
  | "decimal" => validateDecimal value originalDataType == .ok
  | "date" => env.dateParse value
  | "timestamp" => env.dateParse value
  | "email" => jsEmailTest value
  | "phone" => jsPhoneTest value
  | "boolean" => isValidBoolean value
  | _ => true

/-- A validation rule as produced by the rule loader (`loadMappingRules`).
`minLength`/`maxLength` are absent-or-numeric (`parseNumber`), and
`pattern`/`allowedValues` are absent-or-string column values. -/
structure FieldRule where
  fieldName : String
  dataType : String
  originalDataType : String
  required : Bool
  nullAllowed : Bool
  minLength : Option Nat
  maxLength : Option Nat
  pattern : Option String
  allowedValues : Option String
deriving DecidableEq, Repr

/-- The errors `validateField` can push, one constructor per `push`
site, carrying the dynamic parts of the source message. -/
inductive FieldError where
  | requiredMissing (field : String)
  | invalidDataType (field : String) (expected : String) (got : String)
  | tooShort (field : String) (minLen actual : Nat)
  | tooLong (field : String) (maxLen actual : Nat)
  | patternFail (field : String) (pat : String)
  | valueNotAllowed (field : String) (got : String)
deriving DecidableEq, Repr

/-- The only warning `validateField` can push: an invalid regex
pattern in the rule. -/
inductive FieldWarning where
  | badPattern (field : String) (pat : String)
deriving DecidableEq, Repr

structure FieldOut where
  errors : List FieldError
  warnings : List FieldWarning
deriving DecidableEq, Repr

/-- A field value: `none` is JS `undefined`/`null` (missing column). -/
abbrev JsValue := Option String

/-- Source `isEmptyValue` (csvValidator.js:405): `undefined`/`null`, or
a string that trims to the empty string. -/
def isEmptyValue (value : JsValue) : Bool :=
  match value with
  | none => true
  | some s => jsTrim s == ""

/-- JS `String(value)` for the values a record can hold. -/
def jsStringOf (value : JsValue) : String :=
  match value with
  | some s => s
  | none => "undefined"

/-- Source `validateField` (csvValidator.js:190): required/empty
short-circuits, then type, min/max length, pattern and allowed-values
checks, accumulating errors in push order. -/
def validateField (env : JsEnv) (value : JsValue) (rule : FieldRule)
    (fieldName : String) : FieldOut :=
  if rule.required && isEmptyValue value then
    { errors := [.requiredMissing fieldName], warnings := [] }
  else if !rule.required && isEmptyValue value then
    { errors := [], warnings := [] }
  else
    let stringValue := jsStringOf value
    let typeErrors : List FieldError :=
      if rule.dataType ≠ "" then
        if validateDataType env stringValue rule.dataType rule.originalDataType then []
        else [.invalidDataType fieldName rule.originalDataType stringValue]
      else []
    let minErrors : List FieldError :=
      match rule.minLength with
      | some m => if stringValue.length < m then [.tooShort fieldName m stringValue.length] else []
      | none => []
    let maxErrors : List FieldError :=
      match rule.maxLength with
      | some m => if stringValue.length > m then [.tooLong fieldName m stringValue.length] else []
      | none => []
    let patResult : List FieldError × List FieldWarning :=
      match rule.pattern with
      | some p =>
        if p ≠ "" then
          match env.regexCompile p with
          | some test => if !(test stringValue) then ([.patternFail fieldName p], []) else ([], [])
          | none => ([], [.badPattern fieldName p])
        else ([], [])
      | none => ([], [])
    let allowErrors : List FieldError :=
      match rule.allowedValues with
      | some av =>
        if av ≠ "" then
          let allowed := (splitOnChar ',' av.toList).map (fun cs => jsTrim (String.mk cs))
          if !(allowed.contains stringValue) then [.valueNotAllowed fieldName stringValue] else []
        else []
      | none => []
    { errors := typeErrors ++ minErrors ++ maxErrors ++ patResult.1 ++ allowErrors,
      warnings := patResult.2 }

/-- A parsed CSV row: an ordered mapping from column name to raw string
value (JS object with string values). -/
abbrev Record := List (String × String)

/-- JS `record[fieldName]`: `undefined` when the column is absent. -/
def recordGet (r : Record) (f : String) : JsValue := r.lookup f

/-- Per-record result of `validateRecord` (csvValidator.js:158). -/
structure RecordOutcome where
  rowNumber : Nat
  record : Record
  isValid : Bool
  errors : List FieldError
  warnings : List FieldWarning
deriving DecidableEq, Repr

/-- One iteration of the `forEach` in `validateRecord`: validate the
field named by the rule and merge errors/warnings into the accumulator. -/
def recordStep (env : JsEnv) (record : Record) (acc : RecordOutcome)
    (rule : FieldRule) : RecordOutcome :=
  let vr := validateField env (recordGet record rule.fieldName) rule rule.fieldName
  let acc1 :=
    if vr.errors.length > 0 then
      { acc with isValid := false, errors := acc.errors ++ vr.errors }
    else acc
  if vr.warnings.length > 0 then
    { acc1 with warnings := acc1.warnings ++ vr.warnings }
  else acc1

/-- Source `validateRecord` (csvValidator.js:158): start valid with no
findings, then fold every rule over the record. -/
def validateRecord (env : JsEnv) (rules : List FieldRule) (record : Record)
    (rowNumber : Nat) : RecordOutcome :=
  let init : RecordOutcome :=
    { rowNumber := rowNumber, record := record, isValid := true, errors := [], warnings := [] }
  rules.foldl (recordStep env record) init

/-- First-occurrence deduplication, as JS `Object.keys` / `Set`
iteration order gives. -/
def dedupFirstAux (seen : List String) : List String → List String
  | [] => []
  | x :: xs =>
    if seen.contains x then dedupFirstAux seen xs
    else x :: dedupFirstAux (x :: seen) xs

/-- JS `Object.keys(record)`: each column name once, in insertion
order. -/
def keysOf (r : Record) : List String := dedupFirstAux [] (r.map Prod.fst)

/-- JS `Map.prototype.set`: overwrite in place if present, else append. -/
def mapSet {α : Type} (m : List (String × α)) (k : String) (v : α) : List (String × α) :=
  match m with
  | [] => [(k, v)]
  | (k0, v0) :: rest => if k0 == k then (k0, v) :: rest else (k0, v0) :: mapSet rest k v

/-- The composite key: `fields.map(f => String(record[f] || '')).join('|')`. -/
def compositeKeyOf (fields : List String) (r : Record) : String :=
  String.intercalate "|" (fields.map (fun f => (r.lookup f).getD ""))

/-- One emitted duplicate (csvValidator.js:441). -/
structure DuplicateEntry where
  rowNumber : Nat
  originalRowNumber : Nat
  record : Record
  compositeKey : String
  keyFields : List String
  keyValues : List JsValue
deriving DecidableEq, Repr

/-- The `forEach` loop of `detectDuplicates`: `seen` maps composite key
to the zero-based index of its first occurrence; later occurrences are
emitted in input order. -/
def dupLoop (fields : List String) (seen : List (String × Nat)) (index : Nat) :
    List Record → List DuplicateEntry
  | [] => []
  | record :: rest =>
    let key := compositeKeyOf fields record
    match seen.lookup key with
    | some i0 =>
      { rowNumber := index + 1, originalRowNumber := i0 + 1, record := record,
        compositeKey := key, keyFields := fields,
        keyValues := fields.map (fun f => recordGet record f) } ::
        dupLoop fields seen (index + 1) rest
    | none => dupLoop fields (mapSet seen key index) (index + 1) rest

/-- Source `detectDuplicates` (csvValidator.js:428): key fields default
to the columns of the first record. -/
def detectDuplicates (records : List Record) (keyFields : Option (List String)) :
    List DuplicateEntry :=
  let fieldsToCheck :=
    match keyFields with
    | some ks => ks
    | none => keysOf (records.headD [])
  dupLoop fieldsToCheck [] 0 records

/-- A loaded row of the source/destination validator: 1-based row
number plus the parsed record. -/
structure LoadedRow where
  rowNumber : Nat
  data : Record
deriving DecidableEq, Repr

structure MissingEntry where
  compositeKey : String
  sourceRow : Nat
  sourceData : Record
  keyFields : List String
  keyValues : List JsValue
deriving DecidableEq, Repr

structure ExtraEntry where
  compositeKey : String
  destinationRow : Nat
  destinationData : Record
  keyFields : List String
  keyValues : List JsValue
deriving DecidableEq, Repr

/-- One differing non-key field (sourceDestinationValidator.js:242);
`difference` is the constant tag the source stores. -/
structure FieldMismatch where
  field : String
  sourceValue : String
  destinationValue : String
  difference : String
deriving DecidableEq, Repr

structure MismatchEntry where
  compositeKey : String
  sourceRow : Nat
  destinationRow : Nat
  sourceData : Record
  destinationData : Record
  mismatches : List FieldMismatch
  keyFields : List String
  keyValues : List JsValue
deriving DecidableEq, Repr

/-- The `summary` block of the comparison results
(sourceDestinationValidator.js:207). `matchingRecords` is a JS
subtraction, hence `Int`; `comparisonDate` is `new Date().toLocaleString()`
at call time, threaded in as the `now` argument of the embedding. -/
structure ComparisonSummary where
  sourceRecordCount : Nat
  destinationRecordCount : Nat
  matchingRecords : Int
  missingInDestination : Nat
  extraInDestination : Nat
  dataMismatches : Nat
  keyFields : List String
  strictComparison : Bool
  comparisonDate : String
deriving DecidableEq, Repr

/-- The comparison result structure. The `detailedComparison` rows are
presentation rows recomputed from `summary` by
`generateDetailedComparison` and carry no further engine state, so they
are not replicated here. -/
structure ComparisonResults where
  missingInDestination : List MissingEntry
  extraInDestination : List ExtraEntry
  dataMismatches : List MismatchEntry
  summary : ComparisonSummary
deriving DecidableEq, Repr

/-- Source `findFieldMismatches` (sourceDestinationValidator.js:232):
every field present on either side that is not a key field, compared
trimmed; `undefined` and `''` both read as `''`. -/
def findFieldMismatches (sourceRecord destinationRecord : Record)
    (keyFields : List String) : List FieldMismatch :=
  let allFields := dedupFirstAux [] (sourceRecord.map Prod.fst ++ destinationRecord.map Prod.fst)
  allFields.filterMap (fun field =>
    if keyFields.contains field then none
    else
      let sourceValue := (sourceRecord.lookup field).getD ""
      let destValue := (destinationRecord.lookup field).getD ""
      if jsTrim sourceValue ≠ jsTrim destValue then
        some { field := field, sourceValue := sourceValue, destinationValue := destValue,
               difference := "Value mismatch" }
      else none)

/-- The body of `compareFiles` (sourceDestinationValidator.js:127) after
its loaded-data guard: index both sides by composite key (later
duplicate keys within one side overwrite earlier ones), classify keys
as missing/extra, and under strict comparison collect per-field
mismatches of matched keys. `now` is the wall-clock string the source
obtains from `new Date().toLocaleString()`. -/
def compareFilesCore (sourceData destinationData : List LoadedRow)
    (keyFields : Option (List String)) (strictComparison : Bool) (now : String) :
    ComparisonResults :=
  let fieldsToCheck :=
    match keyFields with
    | some ks => ks
    | none => keysOf ((sourceData.headD { rowNumber := 0, data := [] }).data)
  let sourceMap := sourceData.foldl
    (fun m item => mapSet m (compositeKeyOf fieldsToCheck item.data) item) []
  let destinationMap := destinationData.foldl
    (fun m item => mapSet m (compositeKeyOf fieldsToCheck item.data) item) []
  let missing := sourceMap.filterMap (fun kv =>
    if (destinationMap.lookup kv.1).isNone then
      some { compositeKey := kv.1, sourceRow := kv.2.rowNumber, sourceData := kv.2.data,
             keyFields := fieldsToCheck,
             keyValues := fieldsToCheck.map (fun f => recordGet kv.2.data f) }
    else none)
  let extra := destinationMap.filterMap (fun kv =>
    if (sourceMap.lookup kv.1).isNone then
      some { compositeKey := kv.1, destinationRow := kv.2.rowNumber,
             destinationData := kv.2.data, keyFields := fieldsToCheck,
             keyValues := fieldsToCheck.map (fun f => recordGet kv.2.data f) }
    else none)
  let mismatchEntries :=
    if strictComparison then
      sourceMap.filterMap (fun kv =>
        match destinationMap.lookup kv.1 with
        | some destItem =>
          let ms := findFieldMismatches kv.2.data destItem.data fieldsToCheck
          if ms ≠ [] then
            some { compositeKey := kv.1, sourceRow := kv.2.rowNumber,
                   destinationRow := destItem.rowNumber, sourceData := kv.2.data,
                   destinationData := destItem.data, mismatches := ms,
                   keyFields := fieldsToCheck,
                   keyValues := fieldsToCheck.map (fun f => recordGet kv.2.data f) }
          else none
        | none => none)
    else []
  { missingInDestination := missing,
    extraInDestination := extra,
    dataMismatches := mismatchEntries,
    summary :=
      { sourceRecordCount := sourceData.length,
        destinationRecordCount := destinationData.length,
        matchingRecords := (sourceData.length : Int) - (missing.length : Int),
        missingInDestination := missing.length,
        extraInDestination := extra.length,
        dataMismatches := mismatchEntries.length,
        keyFields := fieldsToCheck,
        strictComparison := strictComparison,
        comparisonDate := now } }

/-- Source `compareFiles` including its guard
(sourceDestinationValidator.js:128): throws when either loaded dataset
is empty. -/
def compareFiles (sourceData destinationData : List LoadedRow)
    (keyFields : Option (List String)) (strictComparison : Bool) (now : String) :
    Except String ComparisonResults :=
  if sourceData.length = 0 ∨ destinationData.length = 0 then
    .error "Both source and destination data must be loaded before comparison"
  else
    .ok (compareFilesCore sourceData destinationData keyFields strictComparison now)

/-- Second definition following the claim wording for the integer type
check ("the trimmed value parses as a base-10 integer with no
fractional part"): an optional sign followed by one or more decimal
digits and nothing else. Declared only to compare the claim against the
source check `integerTypeCheckBool`. -/
def isBase10IntegerString (s : String) : Bool :=
  let ds : List Char :=
    match s.toList with
    | '-' :: r => r
    | '+' :: r => r
    | r => r
  !(ds = []) && ds.all Char.isDigit

/-- A rule with `required = true` and no other constraints, for
instantiating the required-field theorems. -/
def ruleRequiredName : FieldRule :=
  { fieldName := "name", dataType := "string", originalDataType := "String",
    required := true, nullAllowed := false, minLength := none, maxLength := none,
    pattern := none, allowedValues := none }

/-- The same rule with `required = false`. -/
def ruleOptionalName : FieldRule :=
  { ruleRequiredName with required := false, nullAllowed := true }

/-- Source side of the reconciliation example: keys 1,2,3,4 with a
non-key payload field `v`. -/
def reconSourceRows : List LoadedRow :=
  [{ rowNumber := 1, data := [("id", "1"), ("v", "a")] },
   { rowNumber := 2, data := [("id", "2"), ("v", "b")] },
   { rowNumber := 3, data := [("id", "3"), ("v", "c")] },
   { rowNumber := 4, data := [("id", "4"), ("v", "d")] }]

/-- Destination side of the reconciliation example: keys 1,2,3,5, where
the record for key 2 differs from the source in the non-key field `v`. -/
def reconDestRows : List LoadedRow :=
  [{ rowNumber := 1, data := [("id", "1"), ("v", "a")] },
   { rowNumber := 2, data := [("id", "2"), ("v", "B")] },
   { rowNumber := 3, data := [("id", "3"), ("v", "c")] },
   { rowNumber := 4, data := [("id", "5"), ("v", "e")] }]

/-- Three pairwise distinct records over the same columns, for the
duplicate-detection witness. -/
def dupRecA : Record := [("id", "1"), ("name", "x")]

def dupRecB : Record := [("id", "2"), ("name", "y")]

def dupRecC : Record := [("id", "3"), ("name", "z")]

/-- The thrown message of an `Except`, if any; used to state that a
call throws a specific error. -/
def exceptErrorStr {α : Type} (e : Except String α) : Option String :=
  match e with
  | .error s => some s
  | .ok _ => none

/-! ### Helper lemmas -/

theorem recordStep_preserves (env : JsEnv) (record : Record) (acc : RecordOutcome)
    (rule : FieldRule) (h : acc.isValid = acc.errors.isEmpty) :
    (recordStep env record acc rule).isValid = (recordStep env record acc rule).errors.isEmpty := by
  unfold recordStep
  by_cases he : (validateField env (recordGet record rule.fieldName) rule rule.fieldName).errors.length > 0
  · have hne : (validateField env (recordGet record rule.fieldName) rule rule.fieldName).errors ≠ [] := by
      intro h0
      rw [h0] at he
      simp at he
    by_cases hw : (validateField env (recordGet record rule.fieldName) rule rule.fieldName).warnings.length > 0
    · simp only [if_pos he, if_pos hw]
      cases hacc : acc.errors with
      | nil =>
        cases hv : (validateField env (recordGet record rule.fieldName) rule rule.fieldName).errors with
        | nil => exact absurd hv hne
        | cons e es => simp [hacc, hv]
      | cons a as => simp [hacc]
    · simp only [if_pos he, if_neg hw]
      cases hacc : acc.errors with
      | nil =>
        cases hv : (validateField env (recordGet record rule.fieldName) rule rule.fieldName).errors with
        | nil => exact absurd hv hne
        | cons e es => simp [hacc, hv]
      | cons a as => simp [hacc]
  · by_cases hw : (validateField env (recordGet record rule.fieldName) rule rule.fieldName).warnings.length > 0
    · simp only [if_neg he, if_pos hw]
      simp only [h]
    · simp only [if_neg he, if_neg hw]
      exact h

theorem foldl_recordStep_preserves (env : JsEnv) (record : Record) (rules : List FieldRule) :
    ∀ acc : RecordOutcome, acc.isValid = acc.errors.isEmpty →
      (rules.foldl (recordStep env record) acc).isValid =
        (rules.foldl (recordStep env record) acc).errors.isEmpty := by
  induction rules with
  | nil => intro acc h; simpa using h
  | cons r rs ih =>
    intro acc h
    rw [List.foldl_cons]
    exact ih _ (recordStep_preserves env record acc r h)

theorem contains_append_self (c : Char) (u : List Char) : (u ++ [c]).contains c = true := by
  simp

theorem splitOnChar_append_sep (c : Char) (u : List Char) (h : c ∉ u) :
    splitOnChar c (u ++ [c]) = [u, []] := by
  induction u with
  | nil => simp [splitOnChar]
  | cons a as ih =>
    have h1 : (a == c) = false := by
      rw [beq_eq_false_iff_ne]
      intro hac
      exact h (by simp [hac])
    have h2 : c ∉ as := fun hm => h (List.mem_cons_of_mem a hm)
    simp [splitOnChar, h1, ih h2]

/-! ### Claim theorems -/

/-- C4: for every rule with `required = true`, `validateField` on an
empty value (absent, or trimming to the empty string) returns exactly
the single required-but-missing error and no warnings, so no further
check fires; for every rule with `required = false`, an empty value
yields no errors and no warnings. -/
theorem claim_C4_required_empty (env : JsEnv) (value : JsValue) (rule : FieldRule)
    (fieldName : String) :
    (rule.required = true → isEmptyValue value = true →
      validateField env value rule fieldName =
        { errors := [.requiredMissing fieldName], warnings := [] }) ∧
    (rule.required = false → isEmptyValue value = true →
      validateField env value rule fieldName = { errors := [], warnings := [] }) := by
  constructor
  · intro hr he
    unfold validateField
    simp [hr, he]
  · intro hr he
    unfold validateField
    simp [hr, he]

/-- Witness for C4 at concrete inputs: an absent value under a required
rule, and a whitespace-only value under an optional rule. -/
theorem claim_C4_witness :
    validateField trivialEnv none ruleRequiredName "name" =
      { errors := [.requiredMissing "name"], warnings := [] } ∧
    validateField trivialEnv (some "   ") ruleOptionalName "name" =
      { errors := [], warnings := [] } :=
  ⟨(claim_C4_required_empty trivialEnv none ruleRequiredName "name").1 rfl rfl,
   (claim_C4_required_empty trivialEnv (some "   ") ruleOptionalName "name").2 rfl (by decide)⟩

/-- C9: for every record and rule list, the outcome of `validateRecord`
has `isValid` false exactly when its error list is non-empty; warnings
never affect validity. -/
theorem claim_C9_isValid_iff_no_errors (env : JsEnv) (rules : List FieldRule)
    (record : Record) (rowNumber : Nat) :
    (validateRecord env rules record rowNumber).isValid =
      (validateRecord env rules record rowNumber).errors.isEmpty :=
  foldl_recordStep_preserves env record rules _ rfl

/-- C5: on source keys 1,2,3,4 and destination keys 1,2,3,5 (key 2
differing in the non-key field `v`), `compareFiles` reports missing =
key 4 and extra = key 5; with `strict = false` the mismatch list is
empty, and with `strict = true` it has exactly one entry, for key 2. -/
theorem claim_C5_reconcile_example :
    ((compareFiles reconSourceRows reconDestRows (some ["id"]) false "t").toOption.map
      (fun r => (r.missingInDestination.map (fun e => e.compositeKey),
                 r.extraInDestination.map (fun e => e.compositeKey),
                 r.dataMismatches.map (fun e => e.compositeKey))) =
        some (["4"], ["5"], [])) ∧
    ((compareFiles reconSourceRows reconDestRows (some ["id"]) true "t").toOption.map
      (fun r => r.dataMismatches.map (fun e => e.compositeKey)) = some ["2"]) := by
  constructor
  · decide
  · decide

/-- C8: five records where rows 1, 3 and 5 are the same record and rows
2 and 4 are distinct (distinctness expressed at composite-key level,
which is what "keyed on whole-row equality" makes equivalent to record
distinctness): `detectDuplicates` emits exactly rows 3 and 5, in input
order, each referencing row 1 as the original. -/
theorem claim_C8_duplicates (r1 r2 r4 : Record)
    (h21 : compositeKeyOf (keysOf r1) r2 ≠ compositeKeyOf (keysOf r1) r1)
    (h41 : compositeKeyOf (keysOf r1) r4 ≠ compositeKeyOf (keysOf r1) r1)
    (h42 : compositeKeyOf (keysOf r1) r4 ≠ compositeKeyOf (keysOf r1) r2) :
    (detectDuplicates [r1, r2, r1, r4, r1] none).map
      (fun d => (d.rowNumber, d.originalRowNumber)) = [(3, 1), (5, 1)] := by
  have e21 : (compositeKeyOf (keysOf r1) r2 == compositeKeyOf (keysOf r1) r1) = false :=
    beq_eq_false_iff_ne.mpr h21
  have e12 : (compositeKeyOf (keysOf r1) r1 == compositeKeyOf (keysOf r1) r2) = false :=
    beq_eq_false_iff_ne.mpr (Ne.symm h21)
  have e41 : (compositeKeyOf (keysOf r1) r4 == compositeKeyOf (keysOf r1) r1) = false :=
    beq_eq_false_iff_ne.mpr h41
  have e14 : (compositeKeyOf (keysOf r1) r1 == compositeKeyOf (keysOf r1) r4) = false :=
    beq_eq_false_iff_ne.mpr (Ne.symm h41)
  have e42 : (compositeKeyOf (keysOf r1) r4 == compositeKeyOf (keysOf r1) r2) = false :=
    beq_eq_false_iff_ne.mpr h42
  have e24 : (compositeKeyOf (keysOf r1) r2 == compositeKeyOf (keysOf r1) r4) = false :=
    beq_eq_false_iff_ne.mpr (Ne.symm h42)
  simp [detectDuplicates, dupLoop, List.lookup, mapSet, e21, e12, e41, e14, e42, e24]

/-- Witness for C8 at three concrete pairwise distinct records. -/
theorem claim_C8_witness :
    (detectDuplicates [dupRecA, dupRecB, dupRecA, dupRecC, dupRecA] none).map
      (fun d => (d.rowNumber, d.originalRowNumber)) = [(3, 1), (5, 1)] :=
  claim_C8_duplicates dupRecA dupRecB dupRecC (by decide) (by decide) (by decide)

/-- C10: for every declared precision and scale, any numeric value
whose trimmed, sign-stripped form is some dot-free digit run followed
by a bare decimal point (such as `123.`) is accepted by the decimal
check whenever the integer part fits in `precision - scale` digits: the
empty fractional part bypasses the exact-scale check entirely. -/
theorem claim_C10_empty_fraction (precision scale : Nat) (value : String) (u : List Char)
    (hnum : (jsStrToNum value).isNone = false)
    (hshape : stripMinus (jsTrim value).toList = u ++ ['.'])
    (hu : '.' ∉ u)
    (hlen : (u.length : Int) ≤ (precision : Int) - (scale : Int)) :
    validateDecimalCore value (some (precision, scale)) = .ok := by
  have hcontains : ((stripMinus (jsTrim value).toList).contains '.') = true := by
    rw [hshape]
    exact contains_append_self '.' u
  have hsplit : splitOnChar '.' (stripMinus (jsTrim value).toList) = [u, []] := by
    rw [hshape]
    exact splitOnChar_append_sep '.' u hu
  have hulen : u.length ≤ precision := by omega
  unfold validateDecimalCore
  rw [hnum]
  simp only [Bool.false_eq_true, if_false, hshape]
  rw [← hshape, hcontains, hsplit]
  simp only [List.headD, List.drop, List.tail]
  have hne : ¬(([] : List Char) ≠ [] ∧ (([] : List Char)).length ≠ scale) := by simp
  rw [if_neg hne]
  simp only [ne_eq, not_true_eq_false, if_false, List.length_nil]
  have htot : ¬(u.length + 0 > precision) := by omega
  rw [if_neg htot]
  have hint : ¬((u.length : Int) > (precision : Int) - (scale : Int)) := by omega
  rw [if_neg hint]
  simp

/-- Witness for C10: `123.` against precision 18, scale 2. -/
theorem claim_C10_witness :
    validateDecimalCore "123." (some (18, 2)) = .ok :=
  claim_C10_empty_fraction 18 2 "123." ['1', '2', '3'] (by decide) (by decide) (by decide)
    (by decide)

/-- C1 counterexample: `123.45` against `DECIMAL(4,2)` is rejected on
the total-digits path, not (as the claim states) on the
integer-part-too-long path, and `123.` against `DECIMAL(18,2)` has
fractional-digit count 0, different from the declared scale 2, yet is
accepted — refuting the claim that every value whose fractional-digit
count differs from the scale is rejected. -/
theorem claim_C1_counterexample :
    validateDecimal "123.45" "DECIMAL(4,2)" = .overTotalPrecision ∧
    DecimalVerdict.overTotalPrecision ≠ DecimalVerdict.integerPartTooLong ∧
    validateDecimal "123." "DECIMAL(18,2)" = .ok ∧
    ((splitOnChar '.' (stripMinus (jsTrim "123.").toList)).drop 1).headD [] = ([] : List Char) := by
  refine ⟨by decide, by decide, by decide, by decide⟩

/-- C1 amended: with precision 18 and scale 2 the checker accepts
`1234567890123456.78`, rejects `12345678901234567.89` reporting total
precision exceeded, and rejects `123.456` reporting a scale mismatch;
`123.45` with precision 4 and scale 2 is rejected, but reporting total
precision exceeded (the integer-part check is shadowed by the
total-digits check whenever the fractional part is non-empty); and for
every declared scale, every numeric value with a decimal point and a
NON-EMPTY fractional part whose fractional-digit count differs from the
scale is rejected with the scale-mismatch report. -/
theorem claim_C1_amended :
    validateDecimal "1234567890123456.78" "DECIMAL(18,2)" = .ok ∧
    validateDecimal "12345678901234567.89" "DECIMAL(18,2)" = .overTotalPrecision ∧
    validateDecimal "123.456" "DECIMAL(18,2)" = .wrongScale ∧
    validateDecimal "123.45" "DECIMAL(4,2)" = .overTotalPrecision ∧
    (∀ (precision scale : Nat) (value : String) (dp : List Char),
      (jsStrToNum value).isNone = false →
      (stripMinus (jsTrim value).toList).contains '.' = true →
      ((splitOnChar '.' (stripMinus (jsTrim value).toList)).drop 1).headD [] = dp →
      dp ≠ [] → dp.length ≠ scale →
      validateDecimalCore value (some (precision, scale)) = .wrongScale) := by
  refine ⟨by decide, by decide, by decide, by decide, ?_⟩
  intro precision scale value dp hnum hdot hdp hne hs
  unfold validateDecimalCore
  rw [hnum]
  simp only [Bool.false_eq_true, if_false]
  rw [hdot]
  simp only [Bool.not_true, Bool.false_eq_true, if_false]
  rw [hdp]
  rw [if_pos ⟨hne, hs⟩]

/-- Witness for the universal part of the amended C1: `1.234` has three
fractional digits against scale 2 and is rejected with the
scale-mismatch report. -/
theorem claim_C1_witness :
    validateDecimalCore "1.234" (some (18, 2)) = .wrongScale :=
  claim_C1_amended.2.2.2.2 18 2 "1.234" ['2', '3', '4'] (by decide) (by decide) (by decide)
    (by decide) (by decide)

/-- C2 counterexample: with a loaded, non-empty source and a loaded but
empty destination, `compareFiles` throws its loaded-data error instead
of returning all source keys as missing; likewise two empty datasets do
not yield an empty result but the same error. -/
theorem claim_C2_counterexample :
    exceptErrorStr (compareFiles [{ rowNumber := 1, data := [("id", "1")] }] [] none false "t") =
      some "Both source and destination data must be loaded before comparison" ∧
    exceptErrorStr (compareFiles [] [] none false "t") =
      some "Both source and destination data must be loaded before comparison" := by
  refine ⟨by decide, by decide⟩

/-- C2 amended: `compareFiles` returns normally exactly when both
datasets are non-empty; a dataset that was loaded but contains zero
records is indistinguishable from a dataset that was never loaded, so
either side being empty is treated as the precondition failure and
throws. -/
theorem claim_C2_amended (sourceData destinationData : List LoadedRow)
    (keyFields : Option (List String)) (strictComparison : Bool) (now : String) :
    (compareFiles sourceData destinationData keyFields strictComparison now).isOk =
      (!sourceData.isEmpty && !destinationData.isEmpty) := by
  cases sourceData with
  | nil => simp [compareFiles, Except.isOk, Except.toBool]
  | cons a as =>
    cases destinationData with
    | nil => simp [compareFiles, Except.isOk, Except.toBool]
    | cons b bs => simp [compareFiles, Except.isOk, Except.toBool]

/-- C3 counterexample: re-running `compareFiles` on unchanged datasets
at a later wall-clock instant produces a different output structure —
the summary embeds the call-time timestamp (`comparisonDate`), so the
output is not byte-identical across runs. -/
theorem claim_C3_counterexample :
    compareFilesCore [{ rowNumber := 1, data := [("id", "1")] }]
        [{ rowNumber := 1, data := [("id", "1")] }] none false "1/1/2024, 10:00:00 AM" ≠
      compareFilesCore [{ rowNumber := 1, data := [("id", "1")] }]
        [{ rowNumber := 1, data := [("id", "1")] }] none false "1/1/2024, 10:00:01 AM" := by
  decide

/-- C3 amended: `validateRecord` is a pure function of its inputs, and
the comparison result depends on the wall clock only through
`summary.comparisonDate`: two runs on unchanged inputs agree on every
missing/extra/mismatch entry and on every summary field except the
recorded timestamp. -/
theorem claim_C3_amended (sourceData destinationData : List LoadedRow)
    (keyFields : Option (List String)) (strictComparison : Bool) (t1 t2 : String) :
    (compareFilesCore sourceData destinationData keyFields strictComparison t1).missingInDestination =
      (compareFilesCore sourceData destinationData keyFields strictComparison t2).missingInDestination ∧
    (compareFilesCore sourceData destinationData keyFields strictComparison t1).extraInDestination =
      (compareFilesCore sourceData destinationData keyFields strictComparison t2).extraInDestination ∧
    (compareFilesCore sourceData destinationData keyFields strictComparison t1).dataMismatches =
      (compareFilesCore sourceData destinationData keyFields strictComparison t2).dataMismatches ∧
    (compareFilesCore sourceData destinationData keyFields strictComparison t1).summary =
      { (compareFilesCore sourceData destinationData keyFields strictComparison t2).summary with
          comparisonDate := t1 } :=
  ⟨rfl, rfl, rfl, rfl⟩

/-- C6 counterexample: the integer type check accepts `1e2` (written
with an exponent), `0x10` (non-decimal base prefix) and `12.0` (written
with a fractional part), although none of them is a plain base-10
integer literal — refuting the claimed equivalence. -/
theorem claim_C6_counterexample :
    validateDataType trivialEnv "1e2" "integer" "Integer" = true ∧
    isBase10IntegerString (jsTrim "1e2") = false ∧
    validateDataType trivialEnv "0x10" "integer" "Integer" = true ∧
    isBase10IntegerString (jsTrim "0x10") = false ∧
    validateDataType trivialEnv "12.0" "integer" "Integer" = true ∧
    isBase10IntegerString (jsTrim "12.0") = false := by
  refine ⟨by decide, by decide, by decide, by decide, by decide, by decide⟩

/-- C6 amended: the integer type check is
`!isNaN(Number(v)) && Number.isInteger(Number(v))`, so it passes exactly
when the value converts under the full JS numeric-literal grammar to a
finite number with no fractional part: plain base-10 integers (also
whitespace-padded) pass, but so do integral values written with a
fractional part, an exponent, or a hex prefix; non-integral and
non-numeric values fail. -/
theorem claim_C6_amended :
    (∀ (env : JsEnv) (value od : String),
      validateDataType env value "integer" od = integerTypeCheckBool value) ∧
    integerTypeCheckBool "12" = true ∧
    integerTypeCheckBool "-3" = true ∧
    integerTypeCheckBool " 12 " = true ∧
    integerTypeCheckBool "12.0" = true ∧
    integerTypeCheckBool "1e2" = true ∧
    integerTypeCheckBool "0x10" = true ∧
    integerTypeCheckBool "12.5" = false ∧
    integerTypeCheckBool "1.2e0" = false ∧
    integerTypeCheckBool "abc" = false ∧
    integerTypeCheckBool "Infinity" = false :=
  ⟨fun _ _ _ => rfl, by decide, by decide, by decide, by decide, by decide, by decide,
   by decide, by decide, by decide, by decide⟩

/-- C7 counterexample: ` true ` — the boolean token surrounded by
whitespace — is rejected by the boolean type check, although its
lowercase-trimmed form is `true`: the source lowercases but never
trims. -/
theorem claim_C7_counterexample :
    validateDataType trivialEnv " true " "boolean" "Boolean" = false ∧
    jsToLowerCase (jsTrim " true ") = "true" := by
  refine ⟨by decide, by decide⟩

/-- C7 amended: the boolean type check passes iff the lowercased (NOT
trimmed) value is one of `true`, `false`, `yes`, `no`, `1`, `0`; a
token surrounded by whitespace is rejected, while case variants such as
`TRUE` are accepted. -/
theorem claim_C7_amended :
    (∀ value : String, isValidBoolean value =
      (jsToLowerCase value == "true" || jsToLowerCase value == "false" ||
       jsToLowerCase value == "yes" || jsToLowerCase value == "no" ||
       jsToLowerCase value == "1" || jsToLowerCase value == "0")) ∧
    (∀ (env : JsEnv) (value od : String),
      validateDataType env value "boolean" od = isValidBoolean value) ∧
    isValidBoolean " true " = false ∧
    isValidBoolean "TRUE" = true :=
  ⟨fun _ => rfl, fun _ _ _ => rfl, by decide, by decide⟩

end FileValidator
